import Mathlib

/-!
Verification development for the product-image-generator backend.

The TypeScript sources are shallowly embedded: JavaScript numbers are
modelled as rationals (ℚ), `Math.round` as floor of x + 1/2 (JS rounds
halves toward positive infinity), thrown exceptions as `Except`, and the
filesystem / HTTP environment as explicit function arguments. Image buffers
are modelled symbolically by the inductive `Pix`, whose constructors record
the sharp operations that produced a buffer; the trigonometric dimension
change of sharp's rotate is abstracted as an explicit `rotDims` argument.
-/

namespace PIG

/-- JavaScript Math.round: round half toward positive infinity. -/
def jsRound (q : ℚ) : ℤ := ⌊q + 1/2⌋

/-- LOGO.EDGE_PADDING from src/lib/constants.ts. -/
def EDGE_PADDING : ℚ := 20

/-- LOGO.MIN_SIZE from src/lib/constants.ts (declared bound of the size percent). -/
def LOGO_MIN_SIZE : ℚ := 5

/-- LOGO.MAX_SIZE from src/lib/constants.ts (declared bound of the size percent). -/
def LOGO_MAX_SIZE : ℚ := 50

/-- LOGO.TEXT_DEFAULT_COLOR from src/lib/constants.ts. -/
def TEXT_DEFAULT_COLOR : String := "#FFFFFF"

/-- LOGO.TEXT_DEFAULT_FONT from src/lib/constants.ts. -/
def TEXT_DEFAULT_FONT : String := "Arial"

/-- API.RETRY_ATTEMPTS from src/lib/constants.ts. It is defined there but
referenced nowhere else in the repository. -/
def RETRY_ATTEMPTS : ℕ := 3

/-- AI_PARAMS.MODEL_LOADING_RETRY_DELAY_MS from src/lib/constants.ts. -/
def MODEL_LOADING_RETRY_DELAY_MS : ℚ := 20000

/-- The nine anchor positions of type LogoPosition (src/types). -/
inductive LogoPosition where
  | center
  | topLeft
  | topCenter
  | topRight
  | middleLeft
  | middleRight
  | bottomLeft
  | bottomCenter
  | bottomRight
deriving DecidableEq, Repr

/-- Integer pixel coordinates returned by calculatePosition. -/
structure Position where
  left : ℤ
  top : ℤ
deriving DecidableEq, Repr

/-- calculatePosition from src/lib/logo-overlay.ts (lines 27-91): switch on the
nine anchors with padding LOGO.EDGE_PADDING, then Math.round(left + offsetX)
and Math.round(top + offsetY). -/
def calculatePosition (imageWidth imageHeight logoWidth logoHeight : ℚ)
    (position : LogoPosition) (offsetX offsetY : ℚ) : Position :=
  let padding := EDGE_PADDING
  let lt : ℚ × ℚ :=
    match position with
    | .center => ((imageWidth - logoWidth) / 2, (imageHeight - logoHeight) / 2)
    | .topLeft => (padding, padding)
    | .topCenter => ((imageWidth - logoWidth) / 2, padding)
    | .topRight => (imageWidth - logoWidth - padding, padding)
    | .middleLeft => (padding, (imageHeight - logoHeight) / 2)
    | .middleRight => (imageWidth - logoWidth - padding, (imageHeight - logoHeight) / 2)
    | .bottomLeft => (padding, imageHeight - logoHeight - padding)
    | .bottomCenter => ((imageWidth - logoWidth) / 2, imageHeight - logoHeight - padding)
    | .bottomRight => (imageWidth - logoWidth - padding, imageHeight - logoHeight - padding)
  { left := jsRound (lt.1 + offsetX), top := jsRound (lt.2 + offsetY) }

/-- Modelled from the spec wording of the position algorithm (spec section 4.4):
center ((W-w)/2, (H-h)/2); top row top = P with left = P, (W-w)/2, W-w-P;
middle-left/right top = (H-h)/2 with left = P, W-w-P; bottom row
top = H-h-P with left = P, (W-w)/2, W-w-P; P = 20; then offsetX is added to
left, offsetY to top, and each is rounded to the nearest integer; no clamping
to the canvas bounds. Written for comparison with `calculatePosition`. -/
def specPosition (W H w h : ℚ) (position : LogoPosition) (offsetX offsetY : ℚ) : Position :=
  let P : ℚ := 20
  let anchorLeft : ℚ :=
    match position with
    | .center => (W - w) / 2
    | .topLeft => P
    | .topCenter => (W - w) / 2
    | .topRight => W - w - P
    | .middleLeft => P
    | .middleRight => W - w - P
    | .bottomLeft => P
    | .bottomCenter => (W - w) / 2
    | .bottomRight => W - w - P
  let anchorTop : ℚ :=
    match position with
    | .center => (H - h) / 2
    | .topLeft => P
    | .topCenter => P
    | .topRight => P
    | .middleLeft => (H - h) / 2
    | .middleRight => (H - h) / 2
    | .bottomLeft => H - h - P
    | .bottomCenter => H - h - P
    | .bottomRight => H - h - P
  { left := jsRound (anchorLeft + offsetX), top := jsRound (anchorTop + offsetY) }

/-- The SVG document built by createTextWatermark: a canvas of the base image's
width and twice the font size, holding the watermark text. -/
structure SvgSpec where
  width : ℕ
  height : ℕ
  text : String
  fontSize : ℕ
  color : String
  fontFamily : String
deriving DecidableEq, Repr

/-- Symbolic image buffers: each constructor records the sharp operation that
produced the buffer. `bitmap` is an opaque raster with known dimensions (a
generated image, an uploaded logo file, ...). -/
inductive Pix where
  | bitmap (width height : ℕ) (tag : String)
  | svgText (spec : SvgSpec)
  | resized (src : Pix) (targetWidth : ℤ)
  | opacified (src : Pix) (opacity : ℚ)
  | rotated (src : Pix) (angle : ℚ)
  | composited (base overlay : Pix) (left top : ℤ)
deriving DecidableEq, Repr

/-- Dimensions sharp's metadata reports for a buffer. `resized` models
sharp resize(targetWidth, null, fit: inside, withoutEnlargement: false):
width targetWidth, height scaled proportionally and rounded. The bounding box
of rotate is trigonometric and is abstracted as the `rotDims` argument. -/
def dims (rotDims : ℕ → ℕ → ℚ → ℕ × ℕ) : Pix → ℕ × ℕ
  | .bitmap w h _ => (w, h)
  | .svgText s => (s.width, s.height)
  | .resized src t =>
      let wh := dims rotDims src
      if wh.1 = 0 then (t.toNat, t.toNat)
      else (t.toNat, (jsRound ((wh.2 : ℚ) * (t : ℚ) / (wh.1 : ℚ))).toNat)
  | .opacified src _ => dims rotDims src
  | .rotated src a =>
      let wh := dims rotDims src
      rotDims wh.1 wh.2 a
  | .composited base _ _ _ => dims rotDims base

/-- LogoSettings (src/types). `type` is kept as a string because the claims
also speak about runtime values outside the declared union. Optional fields
are `Option`; JS default-parameter and truthiness checks become `getD`. -/
structure LogoSettings where
  type : String
  content : Option String
  position : LogoPosition
  size : ℚ
  opacity : ℚ
  rotation : Option ℚ
  offsetX : Option ℚ
  offsetY : Option ℚ
  textColor : Option String
  fontFamily : Option String
deriving DecidableEq, Repr

/-- processLogoEffects from logo-overlay.ts (lines 133-163): rotate only when
rotation is present and non-zero (JS truthiness), then a dest-in alpha multiply
only when opacity < 100. -/
def processLogoEffects (logoBuffer : Pix) (opacity : ℚ) (rotation : Option ℚ) : Pix :=
  let p1 :=
    match rotation with
    | some r => if r ≠ 0 then Pix.rotated logoBuffer r else logoBuffer
    | none => logoBuffer
  if opacity < 100 then Pix.opacified p1 opacity else p1

/-- The target width computed inside resizeLogo (logo-overlay.ts line 107):
Math.round((imageWidth * sizePercent) / 100). The source applies no clamping
to sizePercent. -/
def resizeTargetWidth (imageWidth : ℕ) (sizePercent : ℚ) : ℤ :=
  jsRound ((imageWidth : ℚ) * sizePercent / 100)

/-- resizeLogo from logo-overlay.ts (lines 101-123): resize to the target
width preserving aspect ratio and report the resulting dimensions. -/
def resizeLogo (rotDims : ℕ → ℕ → ℚ → ℕ × ℕ) (logoBuffer : Pix) (imageWidth : ℕ)
    (sizePercent : ℚ) : Pix × ℕ × ℕ :=
  let buf := Pix.resized logoBuffer (resizeTargetWidth imageWidth sizePercent)
  let wh := dims rotDims buf
  (buf, wh.1, wh.2)

/-- createTextWatermark from logo-overlay.ts (lines 175-211): font size
Math.round(imageWidth * sizePercent / 100 * 0.5); SVG canvas of width
imageWidth and height fontSize * 2, rasterized to PNG. -/
def createTextWatermark (text : String) (imageWidth : ℕ) (sizePercent : ℚ)
    (color fontFamily : String) : Pix :=
  let fontSize := (jsRound ((imageWidth : ℚ) * sizePercent / 100 * (1/2))).toNat
  Pix.svgText { width := imageWidth, height := fontSize * 2, text := text,
                fontSize := fontSize, color := color, fontFamily := fontFamily }

/-- applyImageLogo from logo-overlay.ts (lines 221-282): read base metadata,
load the logo file, resize to the size percent of the base width, apply
effects, measure the processed logo, compute the position, composite over.
`readFile` is fs.readFileSync. -/
def applyImageLogo (rotDims : ℕ → ℕ → ℚ → ℕ × ℕ) (readFile : String → Pix)
    (baseImageBuffer : Pix) (logoSettings : LogoSettings) (logoPath : String) :
    Except String Pix :=
  let baseWH := dims rotDims baseImageBuffer
  if baseWH.1 = 0 ∨ baseWH.2 = 0 then
    .error "Could not determine base image dimensions"
  else
    let logoBuffer := readFile logoPath
    let r := resizeLogo rotDims logoBuffer baseWH.1 logoSettings.size
    let processedLogo := processLogoEffects r.1 logoSettings.opacity logoSettings.rotation
    let finalWH := dims rotDims processedLogo
    let position := calculatePosition (baseWH.1 : ℚ) (baseWH.2 : ℚ) (finalWH.1 : ℚ)
      (finalWH.2 : ℚ) logoSettings.position (logoSettings.offsetX.getD 0)
      (logoSettings.offsetY.getD 0)
    .ok (Pix.composited baseImageBuffer processedLogo position.left position.top)

/-- applyTextWatermark from logo-overlay.ts (lines 291-356): reject empty or
absent content, read base metadata, render the text watermark at the base
width, apply effects, measure, compute the position, composite over. Note:
there is no resize step on this path. -/
def applyTextWatermark (rotDims : ℕ → ℕ → ℚ → ℕ × ℕ) (baseImageBuffer : Pix)
    (logoSettings : LogoSettings) : Except String Pix :=
  if logoSettings.content.getD "" = "" then
    .error "Text content is required for text watermark"
  else
    let baseWH := dims rotDims baseImageBuffer
    if baseWH.1 = 0 ∨ baseWH.2 = 0 then
      .error "Could not determine base image dimensions"
    else
      let textBuffer := createTextWatermark (logoSettings.content.getD "") baseWH.1
        logoSettings.size (logoSettings.textColor.getD TEXT_DEFAULT_COLOR)
        (logoSettings.fontFamily.getD TEXT_DEFAULT_FONT)
      let processedText := processLogoEffects textBuffer logoSettings.opacity
        logoSettings.rotation
      let textWH := dims rotDims processedText
      let position := calculatePosition (baseWH.1 : ℚ) (baseWH.2 : ℚ) (textWH.1 : ℚ)
        (textWH.2 : ℚ) logoSettings.position (logoSettings.offsetX.getD 0)
        (logoSettings.offsetY.getD 0)
      .ok (Pix.composited baseImageBuffer processedText position.left position.top)

/-- applyLogo from logo-overlay.ts (lines 369-391): pass-through for type none;
for type image require a present, existing path (JS: !logoPath does not
distinguish undefined from the empty string); route text to the watermark
handler; reject every other type. -/
def applyLogo (rotDims : ℕ → ℕ → ℚ → ℕ × ℕ) (readFile : String → Pix)
    (fileExists : String → Bool) (baseImageBuffer : Pix)
    (logoSettings : LogoSettings) (logoPath : Option String) : Except String Pix :=
  if logoSettings.type = "none" then
    .ok baseImageBuffer
  else if logoSettings.type = "image" then
    if logoPath.getD "" = "" ∨ fileExists (logoPath.getD "") = false then
      .error "Logo file path is required and must exist for image logos"
    else
      applyImageLogo rotDims readFile baseImageBuffer logoSettings (logoPath.getD "")
  else if logoSettings.type = "text" then
    applyTextWatermark rotDims baseImageBuffer logoSettings
  else
    .error ("Unsupported logo type: " ++ logoSettings.type)

/-- The downstream placement pipeline both logo types share after asset
production: effects (rotation, opacity), measurement of the processed overlay,
position computation, and the over composite onto the base. Declared
separately from applyImageLogo and applyTextWatermark so that factoring both
through it is a statement, not a definition. -/
def downstreamComposite (rotDims : ℕ → ℕ → ℚ → ℕ × ℕ) (baseImageBuffer : Pix)
    (baseW baseH : ℕ) (asset : Pix) (s : LogoSettings) : Pix :=
  let processed := processLogoEffects asset s.opacity s.rotation
  let wh := dims rotDims processed
  let position := calculatePosition (baseW : ℚ) (baseH : ℚ) (wh.1 : ℚ) (wh.2 : ℚ)
    s.position (s.offsetX.getD 0) (s.offsetY.getD 0)
  Pix.composited baseImageBuffer processed position.left position.top

/-- Whether a buffer's production history contains a resize-to-width step with
the given target width (the scale step of resizeLogo). -/
def usesScaleStep (t : ℤ) : Pix → Bool
  | .bitmap _ _ _ => false
  | .svgText _ => false
  | .resized src t2 => t2 == t || usesScaleStep t src
  | .opacified src _ => usesScaleStep t src
  | .rotated src _ => usesScaleStep t src
  | .composited base overlay _ _ => usesScaleStep t base || usesScaleStep t overlay

/-- The overlay of the outermost composite operation of a buffer, if any. -/
def overlayOf : Pix → Option Pix
  | .composited _ overlay _ _ => some overlay
  | _ => none

/-- The error value of callHuggingFace rejections (class HuggingFaceError). -/
structure HFError where
  message : String
  statusCode : Option ℕ
  estimatedTime : Option ℚ
deriving DecidableEq, Repr

/-- One HTTP response of the synthesis service: 200 with image bytes, 503
"model warming up" with an optional estimated_time, or another status. -/
inductive HFResponse where
  | ok (data : Pix)
  | loading (estimatedTime : Option ℚ)
  | err (status : ℕ) (message : Option String)
deriving DecidableEq, Repr

/-- The message of the 503 branch of callHuggingFace. -/
def loadingMessage (waitTime : ℚ) : String :=
  "Model is loading. Please wait " ++ toString ⌈waitTime⌉ ++ " seconds and try again."

/-- Interpretation of a single HTTP response inside callHuggingFace
(logo-overlay.ts lines 487-513): 200 resolves with the bytes; 503 rejects
with a 503 HuggingFaceError carrying estimated_time (JS
response.estimated_time || MODEL_LOADING_RETRY_DELAY_MS / 1000, so an absent
or zero estimate falls back to 20 seconds); any other status rejects with that
status and the service's error message when present. -/
def interpretResponse : HFResponse → Except HFError Pix
  | .ok data => .ok data
  | .loading est =>
      let waitTime : ℚ :=
        match est with
        | some q => if q = 0 then MODEL_LOADING_RETRY_DELAY_MS / 1000 else q
        | none => MODEL_LOADING_RETRY_DELAY_MS / 1000
      .error { message := loadingMessage waitTime, statusCode := some 503,
               estimatedTime := some waitTime }
  | .err status msg =>
      .error { message := msg.getD ("HuggingFace API error: " ++ toString status),
               statusCode := some status, estimatedTime := none }

/-- callHuggingFace (logo-overlay.ts lines 453-520): it issues exactly one
HTTPS request per invocation and settles on interpreting that single response;
the function body contains no retry loop (API.RETRY_ATTEMPTS is never
referenced). `respond n` is the response the service would give to the n-th
request of this invocation; the second component counts requests performed. -/
def callHuggingFace (respond : ℕ → HFResponse) : Except HFError Pix × ℕ :=
  (interpretResponse (respond 0), 1)

/-- The loop body of generateImages: `i` is the next index, the ℕ argument the
count still to attempt, `acc` the successes so far in reverse. A failure at
index 0 is rethrown; a failure at a later index is skipped and the loop
continues. -/
def generateImagesGo (gen : ℕ → Except HFError Pix) (acc : List Pix) :
    ℕ → ℕ → Except HFError (List Pix)
  | _, 0 => .ok acc.reverse
  | i, r + 1 =>
    match gen i with
    | .ok buf => generateImagesGo gen (buf :: acc) (i + 1) r
    | .error e => if i = 0 then .error e else generateImagesGo gen acc (i + 1) r

/-- generateImages from the AI provider (logo-overlay.ts lines 533-563 and
unnamed part_004 lines 83-108): sequential per-index generation where `gen i`
is the outcome of the i-th callHuggingFace. -/
def generateImages (gen : ℕ → Except HFError Pix) (numImages : ℕ) :
    Except HFError (List Pix) :=
  generateImagesGo gen [] 0 numImages

/-- The success of a synthesis attempt, if any. -/
def successOf (e : Except HFError Pix) : Option Pix :=
  match e with
  | .ok b => some b
  | .error _ => none

/-- GeneratedImage (src/types): url and filename of one stored image. -/
structure GeneratedImage where
  url : String
  filename : String
deriving DecidableEq, Repr

/-- STORAGE.URL_PREFIX from src/lib/constants.ts. -/
def STORAGE_URL_PREFIX : String := "/generated"

/-- generateFilename from image-storage.ts: img_{timestamp}_{batchId}_{index}.png. -/
def generateFilename (timestamp : ℕ) (batchId : String) (index : ℕ) : String :=
  "img_" ++ toString timestamp ++ "_" ++ batchId ++ "_" ++ toString index ++ ".png"

/-- The loop of saveImagesLocally (image-storage.ts lines 135-151): write each
buffer under its indexed filename; a failed write (writeOk i = false) is
logged and skipped and the loop continues. -/
def saveImagesLocallyGo (writeOk : ℕ → Bool) (timestamp : ℕ) (batchId : String) :
    ℕ → List Pix → List GeneratedImage
  | _, [] => []
  | i, _ :: rest =>
    if writeOk i then
      { url := STORAGE_URL_PREFIX ++ "/" ++ generateFilename timestamp batchId i,
        filename := generateFilename timestamp batchId i } ::
        saveImagesLocallyGo writeOk timestamp batchId (i + 1) rest
    else
      saveImagesLocallyGo writeOk timestamp batchId (i + 1) rest

/-- saveImagesLocally from image-storage.ts (lines 125-155). -/
def saveImagesLocally (writeOk : ℕ → Bool) (timestamp : ℕ) (batchId : String)
    (imageBuffers : List Pix) : List GeneratedImage :=
  saveImagesLocallyGo writeOk timestamp batchId 0 imageBuffers

/-- WorkerResult from queue-redis.ts. -/
structure WorkerResult where
  images : List GeneratedImage
  prompt : String
deriving DecidableEq, Repr

/-- The worker body for a job without a logo (queue-redis.ts): generate, then
save; a generateImages rejection rejects the whole job. -/
def processJob (gen : ℕ → Except HFError Pix) (writeOk : ℕ → Bool)
    (timestamp : ℕ) (batchId : String) (prompt : String) (numImages : ℕ) :
    Except HFError WorkerResult :=
  match generateImages gen numImages with
  | .error e => .error e
  | .ok imageBuffers =>
      .ok { images := saveImagesLocally writeOk timestamp batchId imageBuffers,
            prompt := prompt }

/-- GenerateResponse (src/types), restricted to the fields the claims speak
about. -/
structure GenerateResponse where
  success : Bool
  images : List GeneratedImage
  prompt : String
  error : Option String
deriving DecidableEq, Repr

/-- Response shaping of routes/generate.ts: a resolved job yields
createSuccessResponse (success true with the worker's images); a rejected job
is caught and yields createErrorResponse (success false, images []). -/
def routeResponse (jobResult : Except HFError WorkerResult) : GenerateResponse :=
  match jobResult with
  | .ok r => { success := true, images := r.images, prompt := r.prompt, error := none }
  | .error e => { success := false, images := [], prompt := "", error := some e.message }

/-- getImagePath from image-storage.ts: the generated-images directory plus
the filename. -/
def getImagePath (filename : String) : String := "public/generated/" ++ filename

/-- getLogoPath from image-storage.ts: the logos directory plus the filename. -/
def getLogoPath (filename : String) : String := "public/logos/" ++ filename

/-- JS String.split with a one-character separator, on the character list of
the string: "".split(c) is [""], separators at the ends produce empty
segments. -/
def jsSplitCharAux (sep : Char) : List Char → List Char → List (List Char)
  | [], acc => [acc.reverse]
  | c :: rest, acc =>
    if c = sep then acc.reverse :: jsSplitCharAux sep rest []
    else jsSplitCharAux sep rest (c :: acc)

/-- JS s.split(sep) for a one-character separator. -/
def jsSplitChar (sep : Char) (l : List Char) : List (List Char) :=
  jsSplitCharAux sep l []

/-- JS s.startsWith(c) for a one-character prefix. -/
def startsWithChar (c : Char) (s : String) : Bool :=
  match s.data with
  | [] => false
  | a :: _ => a == c

/-- Filename extraction for image logos in the worker loop (part_002):
content.startsWith('/') ? content.split('/').pop() || '' : content
(pop of a split result is its last element; split never yields an empty
array, so the || '' branch is only the defensive default). -/
def logoFilenameFrom (content : String) : String :=
  if startsWithChar '/' content then
    String.mk ((jsSplitChar '/' content.data).getLastD [])
  else content

/-- The logoPath the worker passes to applyLogo, computed identically in every
loop iteration (part_002 lines 281-288): set only for image logos with truthy
content. -/
def workerLogoPath (logo : LogoSettings) : Option String :=
  if logo.type = "image" ∧ logo.content.getD "" ≠ "" then
    some (getLogoPath (logoFilenameFrom (logo.content.getD "")))
  else
    none

/-- The per-image loop of worker step 5 (part_002 lines 274-303): read the
stored file, try applyLogo; on success overwrite the same file and keep the
image entry; on a thrown error keep the entry and leave the stored file
untouched. `fs` maps a path to the bytes stored there and is threaded through
the loop because successful iterations overwrite their file. -/
def applyLogoToSaved (rotDims : ℕ → ℕ → ℚ → ℕ × ℕ) (fileExists : String → Bool)
    (logo : LogoSettings) (fs : String → Pix) :
    List GeneratedImage → (String → Pix) × List GeneratedImage
  | [] => (fs, [])
  | img :: rest =>
    let imagePath := getImagePath img.filename
    let imageBuffer := fs imagePath
    match applyLogo rotDims fs fileExists imageBuffer logo (workerLogoPath logo) with
    | .ok finalBuffer =>
        let fs1 := fun p => if p = imagePath then finalBuffer else fs p
        let tail1 := applyLogoToSaved rotDims fileExists logo fs1 rest
        (tail1.1, img :: tail1.2)
    | .error _ =>
        let tail1 := applyLogoToSaved rotDims fileExists logo fs rest
        (tail1.1, img :: tail1.2)

/-- Worker step 5 guard (part_002 line 269): the logo loop runs only when a
logo is present with type other than none. -/
def workerLogoStep (rotDims : ℕ → ℕ → ℚ → ℕ × ℕ) (fileExists : String → Bool)
    (logo : Option LogoSettings) (fs : String → Pix)
    (savedImages : List GeneratedImage) : (String → Pix) × List GeneratedImage :=
  match logo with
  | some lg =>
      if lg.type ≠ "none" then applyLogoToSaved rotDims fileExists lg fs savedImages
      else (fs, savedImages)
  | none => (fs, savedImages)

/-- The bytes stored for one saved image after the worker's logo step, as a
function of that image's own applyLogo outcome on the pre-step filesystem:
the composited buffer on success, the original bytes on failure. -/
def finalBytesFor (rotDims : ℕ → ℕ → ℚ → ℕ × ℕ) (fileExists : String → Bool)
    (logo : LogoSettings) (fs : String → Pix) (img : GeneratedImage) : Pix :=
  match applyLogo rotDims fs fileExists (fs (getImagePath img.filename)) logo
      (workerLogoPath logo) with
  | .ok b => b
  | .error _ => fs (getImagePath img.filename)

/-- Numeric value of a run of decimal digit characters. -/
def digitsVal (l : List Char) : ℕ :=
  l.foldl (fun a c => a * 10 + (c.toNat - 48)) 0

/-- Negate when the parsed sign was a minus. -/
def applySign (neg : Bool) (q : ℚ) : ℚ := if neg then -q else q

/-- The exponent suffix of a JS numeric literal: an optional sign then digits. -/
def jsExponent (l : List Char) : Option ℤ :=
  let sr : Bool × List Char :=
    match l with
    | '-' :: r => (true, r)
    | '+' :: r => (false, r)
    | r => (false, r)
  let ds := sr.2.takeWhile Char.isDigit
  if ds = [] ∨ sr.2.dropWhile Char.isDigit ≠ [] then none
  else some (if sr.1 then -(digitsVal ds : ℤ) else (digitsVal ds : ℤ))

/-- JS Number(string) on a trimmed character list, for the decimal grammar
sign? (digits (dot digits?)? or dot digits) (e sign? digits)?; the empty
string converts to 0; `none` models NaN. Number forms this code path never
receives (hexadecimal, octal, binary, Infinity) are mapped to NaN. -/
def jsNumberCore (l : List Char) : Option ℚ :=
  if l = [] then some 0
  else
    let sr : Bool × List Char :=
      match l with
      | '-' :: r => (true, r)
      | '+' :: r => (false, r)
      | r => (false, r)
    let ip := sr.2.takeWhile Char.isDigit
    let rest := sr.2.dropWhile Char.isDigit
    match rest with
    | [] => if ip = [] then none else some (applySign sr.1 (digitsVal ip : ℚ))
    | '.' :: r2 =>
      let fp := r2.takeWhile Char.isDigit
      let rest2 := r2.dropWhile Char.isDigit
      if ip = [] ∧ fp = [] then none
      else
        let mantissa : ℚ :=
          applySign sr.1 ((digitsVal ip : ℚ) + (digitsVal fp : ℚ) / 10 ^ fp.length)
        match rest2 with
        | [] => some mantissa
        | c :: r3 =>
          if c = 'e' ∨ c = 'E' then
            match jsExponent r3 with
            | some k => some (mantissa * (10 : ℚ) ^ k)
            | none => none
          else none
    | c :: r3 =>
      if (c = 'e' ∨ c = 'E') ∧ ip ≠ [] then
        match jsExponent r3 with
        | some k => some (applySign sr.1 (digitsVal ip : ℚ) * (10 : ℚ) ^ k)
        | none => none
      else none

/-- The whitespace trim JS Number performs before parsing. -/
def jsTrim (l : List Char) : List Char :=
  ((l.dropWhile Char.isWhitespace).reverse.dropWhile Char.isWhitespace).reverse

/-- JS Number on a string: trim surrounding whitespace, then parse. -/
def jsNumber (s : String) : Option ℚ :=
  jsNumberCore (jsTrim s.data)

/-- The JS expression v || 1024 applied to an element of
split('x').map(Number): an absent element (undefined), a NaN and a zero all
fall back to 1024; every other value, including negative or fractional ones,
is kept. -/
def numOr1024 : Option (Option ℚ) → ℚ
  | some (some q) => if q = 0 then 1024 else q
  | some none => 1024
  | none => 1024

/-- parseResolution from the AI provider (logo-overlay.ts lines 571-574 and
part_004 lines 113-116): resolution.split('x').map(Number), destructure the
first two elements, then width || 1024 and height || 1024. -/
def parseResolution (resolution : String) : ℚ × ℚ :=
  let parts := (jsSplitChar 'x' resolution.data).map (fun cs => jsNumberCore (jsTrim cs))
  (numOr1024 parts[0]?, numOr1024 parts[1]?)

/-- A trivial rotation-dimension semantics for concrete instances whose
settings carry no rotation (the rotate branch is then never taken). -/
def rotId : ℕ → ℕ → ℚ → ℕ × ℕ := fun w h _ => (w, h)

/-- A concrete synthesis failure used in concrete instances. -/
def eBoom : HFError := { message := "boom", statusCode := some 500, estimatedTime := none }

/-- A synthesis stub whose every attempt fails. -/
def genFail : ℕ → Except HFError Pix := fun _ => .error eBoom

/-- A synthesis stub failing exactly at indices 1 and 2. -/
def genW : ℕ → Except HFError Pix := fun i =>
  if i = 1 ∨ i = 2 then .error eBoom else .ok (Pix.bitmap 1024 1024 (toString i))

/-- A synthesis stub whose every attempt succeeds. -/
def genOk1 : ℕ → Except HFError Pix := fun _ => .ok (Pix.bitmap 8 8 "g")

/-- An image-logo setting with size 80 percent, pointing at /logos/l.png. -/
def sImg80 : LogoSettings :=
  { type := "image", content := some "/logos/l.png", position := .bottomRight, size := 80,
    opacity := 80, rotation := none, offsetX := none, offsetY := none,
    textColor := none, fontFamily := none }

/-- A text-watermark setting: "ACME", bottom-right, size 20, opacity 100. -/
def sText : LogoSettings :=
  { type := "text", content := some "ACME", position := .bottomRight, size := 20,
    opacity := 100, rotation := none, offsetX := none, offsetY := none,
    textColor := none, fontFamily := none }

/-- A type-none logo setting. -/
def sNone : LogoSettings :=
  { type := "none", content := none, position := .center, size := 20,
    opacity := 80, rotation := none, offsetX := none, offsetY := none,
    textColor := none, fontFamily := none }

/-- A text setting with empty content. -/
def sTextEmpty : LogoSettings :=
  { type := "text", content := some "", position := .center, size := 20,
    opacity := 80, rotation := none, offsetX := none, offsetY := none,
    textColor := none, fontFamily := none }

/-- A logo setting whose type lies outside the declared union. -/
def sBogus : LogoSettings :=
  { type := "circle", content := some "x", position := .center, size := 20,
    opacity := 80, rotation := none, offsetX := none, offsetY := none,
    textColor := none, fontFamily := none }

/-- Two stored images of one batch. -/
def imgsAB : List GeneratedImage :=
  [{ url := "/generated/a.png", filename := "a.png" },
   { url := "/generated/b.png", filename := "b.png" }]

/-- A filesystem whose every path holds a distinct 100 by 100 bitmap. -/
def fsTag : String → Pix := fun p => Pix.bitmap 100 100 p

/-- A service whose first response is 503 warming-up (estimated 5 s) and whose
further responses would succeed. -/
def respondW : ℕ → HFResponse := fun i =>
  if i = 0 then .loading (some 5) else .ok (Pix.bitmap 1 1 "x")

/-- C3: for every one of the nine anchor positions, base dimensions, overlay
dimensions and signed offsets, calculatePosition computes exactly the spec's
anchor formulas with edge padding P = 20, adds offsetX to left and offsetY to
top, and rounds each to the nearest integer, with no clamping to the canvas
bounds (the spec-side formula, which performs no clamping, is reproduced
exactly, even when it yields negative or out-of-canvas coordinates). -/
theorem C3_position_formulas (W H w h : ℚ) (position : LogoPosition)
    (offsetX offsetY : ℚ) :
    calculatePosition W H w h position offsetX offsetY =
      specPosition W H w h position offsetX offsetY := by
  cases position <;> rfl

/-- Once the generation loop is past index 0, every remaining failure is
skipped, so the loop returns exactly the successes of the remaining indices in
their original order. -/
theorem generateImagesGo_ok_of_pos (gen : ℕ → Except HFError Pix) :
    ∀ (r i : ℕ) (acc : List Pix), 1 ≤ i →
      generateImagesGo gen acc i r =
        .ok (acc.reverse ++ (List.range' i r).filterMap (fun j => successOf (gen j))) := by
  intro r
  induction r with
  | zero =>
    intro i acc _
    simp [generateImagesGo]
  | succ r ih =>
    intro i acc hi
    rw [List.range'_succ]
    cases hg : gen i with
    | ok buf =>
      simp only [generateImagesGo, hg]
      rw [ih (i + 1) (buf :: acc) (by omega)]
      simp [successOf, hg, List.filterMap_cons]
    | error e =>
      simp only [generateImagesGo, hg]
      rw [if_neg (show ¬i = 0 by omega)]
      rw [ih (i + 1) acc (by omega)]
      simp [successOf, hg, List.filterMap_cons]

/-- A failure at index 0 is rethrown, failing the whole batch. -/
theorem generateImages_error_of_first (gen : ℕ → Except HFError Pix) (numImages : ℕ)
    (e : HFError) (hn : 1 ≤ numImages) (h0 : gen 0 = .error e) :
    generateImages gen numImages = .error e := by
  obtain ⟨m, rfl⟩ : ∃ m, numImages = m + 1 := ⟨numImages - 1, by omega⟩
  simp [generateImages, generateImagesGo, h0]

/-- When index 0 succeeds, the batch returns exactly the successes, in
increasing index order. -/
theorem generateImages_ok_of_first (gen : ℕ → Except HFError Pix) (numImages : ℕ)
    (b0 : Pix) (hn : 1 ≤ numImages) (h0 : gen 0 = .ok b0) :
    generateImages gen numImages =
      .ok ((List.range numImages).filterMap (fun j => successOf (gen j))) := by
  obtain ⟨m, rfl⟩ : ∃ m, numImages = m + 1 := ⟨numImages - 1, by omega⟩
  rw [List.range_eq_range', List.range'_succ]
  simp only [generateImages, generateImagesGo, h0]
  rw [generateImagesGo_ok_of_pos gen m 1 [b0] (by omega)]
  simp [successOf, h0, List.filterMap_cons]

/-- When every write succeeds, saveImagesLocally keeps one entry per buffer. -/
theorem saveImagesLocallyGo_length (writeOk : ℕ → Bool) (ts : ℕ) (bid : String)
    (hw : ∀ j, writeOk j = true) :
    ∀ (bufs : List Pix) (i : ℕ),
      (saveImagesLocallyGo writeOk ts bid i bufs).length = bufs.length := by
  intro bufs
  induction bufs with
  | nil => intro i; rfl
  | cons b rest ih => intro i; simp [saveImagesLocallyGo, hw i, ih (i + 1)]

/-- C1: for every job (the worker's defaulting gives every job numImages ≥ 1),
if the synthesis call for image index 0 fails, generateImages rethrows that
error, so the whole job terminates as failed and the response carries success
false and zero images, regardless of numImages. -/
theorem C1_fail_fast (gen : ℕ → Except HFError Pix) (writeOk : ℕ → Bool)
    (timestamp : ℕ) (batchId prompt : String) (numImages : ℕ) (e : HFError)
    (hn : 1 ≤ numImages) (h0 : gen 0 = .error e) :
    routeResponse (processJob gen writeOk timestamp batchId prompt numImages) =
      { success := false, images := [], prompt := "", error := some e.message } := by
  simp [processJob, generateImages_error_of_first gen numImages e hn h0, routeResponse]

/-- C1 witness: a job of 4 images whose first synthesis attempt fails ends
failed with zero images. -/
theorem C1_fail_fast_witness :
    1 ≤ 4 ∧ genFail 0 = .error eBoom ∧
    routeResponse (processJob genFail (fun _ => true) 7 "batch" "prompt" 4) =
      { success := false, images := [], prompt := "", error := some eBoom.message } :=
  ⟨by decide, rfl,
    C1_fail_fast genFail (fun _ => true) 7 "batch" "prompt" 4 eBoom (by decide) rfl⟩

/-- C2: for every job with numImages ≥ 2 whose index-0 synthesis succeeds and
whose storage writes succeed, the job completes (success true) and the
generated buffers are exactly the successes, in increasing order of their
original generation index, with images.length equal to the number of
successes and at most numImages. -/
theorem C2_partial_success (gen : ℕ → Except HFError Pix) (writeOk : ℕ → Bool)
    (timestamp : ℕ) (batchId prompt : String) (numImages : ℕ) (b0 : Pix)
    (hn : 2 ≤ numImages) (h0 : gen 0 = .ok b0) (hw : ∀ i, writeOk i = true) :
    generateImages gen numImages =
      .ok ((List.range numImages).filterMap (fun j => successOf (gen j))) ∧
    (routeResponse (processJob gen writeOk timestamp batchId prompt numImages)).success =
      true ∧
    (routeResponse (processJob gen writeOk timestamp batchId prompt numImages)).images.length =
      ((List.range numImages).filterMap (fun j => successOf (gen j))).length ∧
    (routeResponse (processJob gen writeOk timestamp batchId prompt numImages)).images.length ≤
      numImages := by
  have hgen := generateImages_ok_of_first gen numImages b0 (by omega) h0
  have hlen :
      (routeResponse (processJob gen writeOk timestamp batchId prompt numImages)).images.length =
        ((List.range numImages).filterMap (fun j => successOf (gen j))).length := by
    simp [processJob, hgen, routeResponse, saveImagesLocally,
      saveImagesLocallyGo_length writeOk timestamp batchId hw]
  refine ⟨hgen, ?_, hlen, ?_⟩
  · simp [processJob, hgen, routeResponse]
  · rw [hlen]
    calc ((List.range numImages).filterMap (fun j => successOf (gen j))).length ≤
        (List.range numImages).length := List.length_filterMap_le _ _
      _ = numImages := List.length_range numImages

/-- C2 witness: numImages = 4 with synthesis failing exactly at indices 1 and
2 completes with exactly the two buffers of indices 0 and 3, in that order. -/
theorem C2_partial_success_witness :
    2 ≤ 4 ∧ genW 0 = .ok (Pix.bitmap 1024 1024 "0") ∧
    generateImages genW 4 = .ok [Pix.bitmap 1024 1024 "0", Pix.bitmap 1024 1024 "3"] ∧
    (routeResponse (processJob genW (fun _ => true) 7 "batch" "prompt" 4)).success = true ∧
    (routeResponse (processJob genW (fun _ => true) 7 "batch" "prompt" 4)).images.length = 2 := by
  have h := C2_partial_success genW (fun _ => true) 7 "batch" "prompt" 4
    (Pix.bitmap 1024 1024 "0") (by decide) rfl (fun i => rfl)
  refine ⟨by decide, rfl, ?_, h.2.1, ?_⟩
  · rw [h.1]; rfl
  · rw [h.2.2.1]; rfl

/-- C4 counterexample: a one-image job whose synthesis succeeds but whose
single storage write fails still completes: the response has success true with
zero images, refuting images.length == 0 iff success == false. -/
theorem C4_counterexample :
    (routeResponse (processJob genOk1 (fun _ => false) 1 "batch" "p" 1)).success = true ∧
    (routeResponse (processJob genOk1 (fun _ => false) 1 "batch" "p" 1)).images = [] ∧
    ¬((routeResponse (processJob genOk1 (fun _ => false) 1 "batch" "p" 1)).images.length = 0 →
      (routeResponse (processJob genOk1 (fun _ => false) 1 "batch" "p" 1)).success = false) :=
  ⟨rfl, rfl, fun himp => absurd (himp rfl) (by decide)⟩

/-- C4 amended: provided every storage write of the job succeeds (and
numImages ≥ 1), images.length == 0 holds exactly when success == false; a
failed response always has zero images, and without the storage proviso a
completed job can carry zero images when every write fails. -/
theorem C4_zero_images_iff_failed (gen : ℕ → Except HFError Pix) (writeOk : ℕ → Bool)
    (timestamp : ℕ) (batchId prompt : String) (numImages : ℕ)
    (hn : 1 ≤ numImages) (hw : ∀ i, writeOk i = true) :
    (routeResponse (processJob gen writeOk timestamp batchId prompt numImages)).images = [] ↔
      (routeResponse (processJob gen writeOk timestamp batchId prompt numImages)).success =
        false := by
  cases hgen : generateImages gen numImages with
  | error e => simp [processJob, hgen, routeResponse]
  | ok bufs =>
    have h0 : ∃ b0, gen 0 = .ok b0 := by
      cases hg : gen 0 with
      | ok b => exact ⟨b, rfl⟩
      | error e =>
        rw [generateImages_error_of_first gen numImages e hn hg] at hgen
        simp at hgen
    obtain ⟨b0, hb0⟩ := h0
    have hval := generateImages_ok_of_first gen numImages b0 hn hb0
    have hbufs : bufs = (List.range numImages).filterMap (fun j => successOf (gen j)) := by
      rw [hval] at hgen
      injection hgen with h
      exact h.symm
    have hmem : b0 ∈ bufs := by
      rw [hbufs]
      refine List.mem_filterMap.mpr ⟨0, List.mem_range.mpr (by omega), ?_⟩
      simp [successOf, hb0]
    have hne : bufs ≠ [] := fun h => by simp [h] at hmem
    have hlength : (saveImagesLocally writeOk timestamp batchId bufs).length = bufs.length :=
      saveImagesLocallyGo_length writeOk timestamp batchId hw bufs 0
    have himg : saveImagesLocally writeOk timestamp batchId bufs ≠ [] := by
      intro h
      rw [h] at hlength
      exact hne (List.length_eq_zero.mp hlength.symm)
    have hroute : routeResponse (processJob gen writeOk timestamp batchId prompt numImages) =
        { success := true, images := saveImagesLocally writeOk timestamp batchId bufs,
          prompt := prompt, error := none } := by
      simp [processJob, hgen, routeResponse]
    rw [hroute]
    simp [himg]

/-- C4 witness: a one-image job whose synthesis and storage write both succeed
satisfies the zero-images iff failed equivalence. -/
theorem C4_zero_images_iff_failed_witness :
    1 ≤ 1 ∧
    ((routeResponse (processJob genOk1 (fun _ => true) 1 "batch" "p" 1)).images = [] ↔
      (routeResponse (processJob genOk1 (fun _ => true) 1 "batch" "p" 1)).success = false) :=
  ⟨by decide,
    C4_zero_images_iff_failed genOk1 (fun _ => true) 1 "batch" "p" 1 (by decide)
      (fun i => rfl)⟩

/-- applyImageLogo reads the filesystem only at its logo path. -/
theorem applyImageLogo_congr (rotDims : ℕ → ℕ → ℚ → ℕ × ℕ) (f1 f2 : String → Pix)
    (base : Pix) (s : LogoSettings) (p : String) (h : f1 p = f2 p) :
    applyImageLogo rotDims f1 base s p = applyImageLogo rotDims f2 base s p := by
  simp only [applyImageLogo, h]

/-- applyLogo reads the filesystem only at its logo path, when one is given. -/
theorem applyLogo_congr (rotDims : ℕ → ℕ → ℚ → ℕ × ℕ) (f1 f2 : String → Pix)
    (fileExists : String → Bool) (base : Pix) (s : LogoSettings) (lp : Option String)
    (h : ∀ p, lp = some p → f1 p = f2 p) :
    applyLogo rotDims f1 fileExists base s lp = applyLogo rotDims f2 fileExists base s lp := by
  cases lp with
  | none => simp [applyLogo]
  | some p =>
    have hp : f1 p = f2 p := h p rfl
    simp only [applyLogo, Option.getD_some]
    rw [applyImageLogo_congr rotDims f1 f2 base s p hp]

/-- finalBytesFor depends on the filesystem only at the image's own path and
at the logo path. -/
theorem finalBytesFor_congr (rotDims : ℕ → ℕ → ℚ → ℕ × ℕ) (fileExists : String → Bool)
    (lg : LogoSettings) (f1 f2 : String → Pix) (img : GeneratedImage)
    (hlp : ∀ p, workerLogoPath lg = some p → f1 p = f2 p)
    (hip : f1 (getImagePath img.filename) = f2 (getImagePath img.filename)) :
    finalBytesFor rotDims fileExists lg f1 img = finalBytesFor rotDims fileExists lg f2 img := by
  unfold finalBytesFor
  rw [hip, applyLogo_congr rotDims f1 f2 fileExists (f2 (getImagePath img.filename)) lg
    (workerLogoPath lg) hlp]

/-- The worker's logo loop: every image entry is kept in order, each stored
file ends with the bytes its own applyLogo outcome on the pre-step filesystem
dictates, and no other path changes. -/
theorem applyLogoToSaved_spec (rotDims : ℕ → ℕ → ℚ → ℕ × ℕ) (fileExists : String → Bool)
    (lg : LogoSettings) :
    ∀ (imgs : List GeneratedImage) (fs : String → Pix),
      (imgs.map (fun im => getImagePath im.filename)).Nodup →
      (∀ p, workerLogoPath lg = some p →
        p ∉ imgs.map (fun im => getImagePath im.filename)) →
      (applyLogoToSaved rotDims fileExists lg fs imgs).2 = imgs ∧
      (∀ img ∈ imgs,
        (applyLogoToSaved rotDims fileExists lg fs imgs).1 (getImagePath img.filename) =
          finalBytesFor rotDims fileExists lg fs img) ∧
      (∀ p, p ∉ imgs.map (fun im => getImagePath im.filename) →
        (applyLogoToSaved rotDims fileExists lg fs imgs).1 p = fs p) := by
  intro imgs
  induction imgs with
  | nil =>
    intro fs _ _
    exact ⟨rfl, by simp, fun p _ => rfl⟩
  | cons img rest ih =>
    intro fs hnd hlp
    rw [List.map_cons, List.nodup_cons] at hnd
    obtain ⟨hip_notin, hnd'⟩ := hnd
    have hlp' : ∀ p, workerLogoPath lg = some p →
        p ∉ rest.map (fun im => getImagePath im.filename) := by
      intro p hp hmem
      exact hlp p hp (by simp [hmem])
    have hlp_ne : ∀ p, workerLogoPath lg = some p → p ≠ getImagePath img.filename := by
      intro p hp heq
      exact hlp p hp (by simp [heq])
    cases hA : applyLogo rotDims fs fileExists (fs (getImagePath img.filename)) lg
        (workerLogoPath lg) with
    | ok finalBuffer =>
      have hstep : applyLogoToSaved rotDims fileExists lg fs (img :: rest) =
          ((applyLogoToSaved rotDims fileExists lg
              (fun p => if p = getImagePath img.filename then finalBuffer else fs p) rest).1,
            img :: (applyLogoToSaved rotDims fileExists lg
              (fun p => if p = getImagePath img.filename then finalBuffer else fs p)
              rest).2) := by
        simp only [applyLogoToSaved, hA]
      obtain ⟨ih1, ih2, ih3⟩ :=
        ih (fun p => if p = getImagePath img.filename then finalBuffer else fs p) hnd' hlp'
      refine ⟨by rw [hstep]; simp [ih1], ?_, ?_⟩
      · intro img' hmem'
        rcases List.mem_cons.mp hmem' with rfl | hmem'
        · rw [hstep]
          rw [ih3 (getImagePath img'.filename) hip_notin]
          simp [finalBytesFor, hA]
        · rw [hstep]
          rw [ih2 img' hmem']
          apply finalBytesFor_congr
          · intro p hp
            exact if_neg (hlp_ne p hp)
          · have hne : getImagePath img'.filename ≠ getImagePath img.filename := by
              intro heq
              exact hip_notin (heq ▸ List.mem_map_of_mem _ hmem')
            exact if_neg hne
      · intro p hpnot
        rw [List.map_cons, List.mem_cons] at hpnot
        push_neg at hpnot
        obtain ⟨hp1, hp2⟩ := hpnot
        rw [hstep]
        rw [ih3 p hp2]
        exact if_neg hp1
    | error e =>
      have hstep : applyLogoToSaved rotDims fileExists lg fs (img :: rest) =
          ((applyLogoToSaved rotDims fileExists lg fs rest).1,
            img :: (applyLogoToSaved rotDims fileExists lg fs rest).2) := by
        simp only [applyLogoToSaved, hA]
      obtain ⟨ih1, ih2, ih3⟩ := ih fs hnd' hlp'
      refine ⟨by rw [hstep]; simp [ih1], ?_, ?_⟩
      · intro img' hmem'
        rcases List.mem_cons.mp hmem' with rfl | hmem'
        · rw [hstep]
          rw [ih3 (getImagePath img'.filename) hip_notin]
          simp [finalBytesFor, hA]
        · rw [hstep]
          exact ih2 img' hmem'
      · intro p hpnot
        rw [List.map_cons, List.mem_cons] at hpnot
        push_neg at hpnot
        obtain ⟨hp1, hp2⟩ := hpnot
        rw [hstep]
        exact ih3 p hp2

/-- C5: for every job with a logo requested (type ≠ none) whose stored images
have pairwise-distinct paths (as the worker's indexed filename scheme
guarantees) and whose logo asset path is none of them, the worker's logo step
(a) keeps every image entry, in order, so a compositing failure fails neither
the job nor any image, (b) gives each stored file exactly the bytes its own
applyLogo outcome on the pre-step filesystem dictates, (c) when applyLogo
throws for an image, leaves that image's stored file with its original
non-composited bytes (the overwrite happens only after success), and (d)
touches no other stored path, so one image's compositing failure cannot
affect any other image's bytes. -/
theorem C5_compositing_degrades (rotDims : ℕ → ℕ → ℚ → ℕ × ℕ) (fileExists : String → Bool)
    (lg : LogoSettings) (fs : String → Pix) (imgs : List GeneratedImage)
    (htype : lg.type ≠ "none")
    (hnd : (imgs.map (fun im => getImagePath im.filename)).Nodup)
    (hlp : ∀ p, workerLogoPath lg = some p →
      p ∉ imgs.map (fun im => getImagePath im.filename)) :
    (workerLogoStep rotDims fileExists (some lg) fs imgs).2 = imgs ∧
    (∀ img ∈ imgs,
      (workerLogoStep rotDims fileExists (some lg) fs imgs).1 (getImagePath img.filename) =
        finalBytesFor rotDims fileExists lg fs img) ∧
    (∀ img ∈ imgs, ∀ e,
      applyLogo rotDims fs fileExists (fs (getImagePath img.filename)) lg
        (workerLogoPath lg) = .error e →
      (workerLogoStep rotDims fileExists (some lg) fs imgs).1 (getImagePath img.filename) =
        fs (getImagePath img.filename)) ∧
    (∀ p, p ∉ imgs.map (fun im => getImagePath im.filename) →
      (workerLogoStep rotDims fileExists (some lg) fs imgs).1 p = fs p) := by
  have hstep : workerLogoStep rotDims fileExists (some lg) fs imgs =
      applyLogoToSaved rotDims fileExists lg fs imgs := by
    simp [workerLogoStep, htype]
  obtain ⟨h1, h2, h3⟩ := applyLogoToSaved_spec rotDims fileExists lg imgs fs hnd hlp
  refine ⟨by rw [hstep]; exact h1, fun img hm => by rw [hstep]; exact h2 img hm, ?_,
    fun p hp => by rw [hstep]; exact h3 p hp⟩
  intro img hm e he
  rw [hstep, h2 img hm]
  simp [finalBytesFor, he]

/-- C5 witness: an image logo whose asset file does not exist makes applyLogo
throw for both stored images; the job still keeps both image entries and the
first image's stored bytes are unchanged. -/
theorem C5_compositing_degrades_witness :
    sImg80.type ≠ "none" ∧
    (workerLogoStep rotId (fun _ => false) (some sImg80) fsTag imgsAB).2 = imgsAB ∧
    applyLogo rotId fsTag (fun _ => false) (fsTag (getImagePath "a.png")) sImg80
      (workerLogoPath sImg80) =
      .error "Logo file path is required and must exist for image logos" ∧
    (workerLogoStep rotId (fun _ => false) (some sImg80) fsTag imgsAB).1
      (getImagePath "a.png") = fsTag (getImagePath "a.png") := by
  have hlp : ∀ p, workerLogoPath sImg80 = some p →
      p ∉ imgsAB.map (fun im => getImagePath im.filename) := by
    intro p hp
    have hvp : workerLogoPath sImg80 = some "public/logos/l.png" := by decide
    rw [hvp] at hp
    injection hp with hp
    subst hp
    decide
  have h := C5_compositing_degrades rotId (fun _ => false) sImg80 fsTag imgsAB
    (by decide) (by decide) hlp
  exact ⟨by decide, h.1, rfl,
    h.2.2.1 { url := "/generated/a.png", filename := "a.png" } (by decide)
      "Logo file path is required and must exist for image logos" rfl⟩

/-- C6 counterexample: when the first response is the 503 warming-up signal
(estimated 5 s), callHuggingFace performs exactly one request — it never
resubmits — and surfaces the 503 error immediately, even though a second
attempt would have succeeded; this refutes the claimed wait-and-resubmit
retry loop. -/
theorem C6_counterexample :
    (callHuggingFace respondW).2 = 1 ∧
    ¬2 ≤ (callHuggingFace respondW).2 ∧
    (callHuggingFace respondW).1 =
      .error { message := loadingMessage 5, statusCode := some 503,
               estimatedTime := some 5 } :=
  ⟨rfl, by decide, rfl⟩

/-- C6 amended: the synthesis client performs exactly one request per
invocation and surfaces every non-200 response immediately, the 503
warming-up signal included (its error carries the service-suggested wait);
API.RETRY_ATTEMPTS = 3 exists in constants.ts but is referenced nowhere, so
no retry loop runs. -/
theorem C6_no_retry (respond : ℕ → HFResponse) :
    (callHuggingFace respond).2 = 1 ∧
    RETRY_ATTEMPTS = 3 ∧
    (∀ d, respond 0 = .ok d → (callHuggingFace respond).1 = .ok d) ∧
    (∀ q, q ≠ 0 → respond 0 = .loading (some q) →
      (callHuggingFace respond).1 =
        .error { message := loadingMessage q, statusCode := some 503,
                 estimatedTime := some q }) ∧
    (∀ st m, respond 0 = .err st m →
      (callHuggingFace respond).1 =
        .error { message := m.getD ("HuggingFace API error: " ++ toString st),
                 statusCode := some st, estimatedTime := none }) := by
  refine ⟨rfl, rfl, ?_, ?_, ?_⟩
  · intro d h
    simp [callHuggingFace, interpretResponse, h]
  · intro q hq h
    simp [callHuggingFace, interpretResponse, h, hq]
  · intro st m h
    simp [callHuggingFace, interpretResponse, h]

/-- C6 witness: the warming-up response with estimate 5 s is surfaced as a 503
error by the single request performed. -/
theorem C6_no_retry_witness :
    (5 : ℚ) ≠ 0 ∧ respondW 0 = .loading (some 5) ∧
    (callHuggingFace respondW).1 =
      .error { message := loadingMessage 5, statusCode := some 503,
               estimatedTime := some 5 } :=
  ⟨by decide, rfl, (C6_no_retry respondW).2.2.2.1 5 (by decide) rfl⟩

/-- C7: applyLogo returns the base bytes unchanged for type none; throws the
missing-asset error for type image when the path is absent or the file does
not exist; throws the missing-content error for type text with absent or
empty content; and throws the unsupported-type error for every type outside
none, image, text. -/
theorem C7_applyLogo_dispatch (rotDims : ℕ → ℕ → ℚ → ℕ × ℕ) (readFile : String → Pix)
    (fileExists : String → Bool) (base : Pix) (s : LogoSettings) (lp : Option String) :
    (s.type = "none" → applyLogo rotDims readFile fileExists base s lp = .ok base) ∧
    (s.type = "image" → lp = none →
      applyLogo rotDims readFile fileExists base s lp =
        .error "Logo file path is required and must exist for image logos") ∧
    (s.type = "image" → ∀ p, lp = some p → fileExists p = false →
      applyLogo rotDims readFile fileExists base s lp =
        .error "Logo file path is required and must exist for image logos") ∧
    (s.type = "text" → (s.content = none ∨ s.content = some "") →
      applyLogo rotDims readFile fileExists base s lp =
        .error "Text content is required for text watermark") ∧
    (s.type ≠ "none" → s.type ≠ "image" → s.type ≠ "text" →
      applyLogo rotDims readFile fileExists base s lp =
        .error ("Unsupported logo type: " ++ s.type)) := by
  refine ⟨?_, ?_, ?_, ?_, ?_⟩
  · intro h
    simp [applyLogo, h]
  · intro h hlp
    subst hlp
    simp [applyLogo, h]
  · intro h p hlp hex
    subst hlp
    simp [applyLogo, h, hex]
  · intro h hc
    rcases hc with hc | hc <;> simp [applyLogo, applyTextWatermark, h, hc]
  · intro h1 h2 h3
    simp [applyLogo, h1, h2, h3]

/-- C7 witness: the four dispatch behaviors at concrete settings — pass-
through for none, missing-asset for image without path and with a
non-existing file, missing-content for empty text, unsupported for type
"circle". -/
theorem C7_applyLogo_dispatch_witness :
    applyLogo rotId fsTag (fun _ => false) (Pix.bitmap 2 2 "b") sNone none =
      .ok (Pix.bitmap 2 2 "b") ∧
    applyLogo rotId fsTag (fun _ => false) (Pix.bitmap 2 2 "b") sImg80 none =
      .error "Logo file path is required and must exist for image logos" ∧
    applyLogo rotId fsTag (fun _ => false) (Pix.bitmap 2 2 "b") sImg80
      (some "public/logos/l.png") =
      .error "Logo file path is required and must exist for image logos" ∧
    applyLogo rotId fsTag (fun _ => false) (Pix.bitmap 2 2 "b") sTextEmpty none =
      .error "Text content is required for text watermark" ∧
    applyLogo rotId fsTag (fun _ => false) (Pix.bitmap 2 2 "b") sBogus none =
      .error ("Unsupported logo type: " ++ sBogus.type) :=
  ⟨(C7_applyLogo_dispatch rotId fsTag (fun _ => false) (Pix.bitmap 2 2 "b") sNone none).1 rfl,
    (C7_applyLogo_dispatch rotId fsTag (fun _ => false) (Pix.bitmap 2 2 "b") sImg80 none).2.1
      rfl rfl,
    (C7_applyLogo_dispatch rotId fsTag (fun _ => false) (Pix.bitmap 2 2 "b") sImg80
      (some "public/logos/l.png")).2.2.1 rfl "public/logos/l.png" rfl rfl,
    (C7_applyLogo_dispatch rotId fsTag (fun _ => false) (Pix.bitmap 2 2 "b") sTextEmpty
      none).2.2.2.1 rfl (Or.inr rfl),
    (C7_applyLogo_dispatch rotId fsTag (fun _ => false) (Pix.bitmap 2 2 "b") sBogus
      none).2.2.2.2 (by decide) (by decide) (by decide)⟩

/-- C8 counterexample: with base width 1000 and caller size 80, the scale step
resizes to width round(1000 * 80 / 100) = 800 — the clamped-to-50 value would
be 500 — and the composite produced by applyImageLogo indeed carries the
overlay resized to that unclamped width, refuting the claimed 5–50 clamp. -/
theorem C8_counterexample :
    resizeTargetWidth 1000 80 = 800 ∧
    jsRound (((1000 : ℕ) : ℚ) * (min LOGO_MAX_SIZE (max LOGO_MIN_SIZE 80)) / 100) = 500 ∧
    resizeTargetWidth 1000 80 ≠
      jsRound (((1000 : ℕ) : ℚ) * (min LOGO_MAX_SIZE (max LOGO_MIN_SIZE 80)) / 100) ∧
    (∃ b, applyImageLogo rotId (fun _ => Pix.bitmap 400 400 "logo")
        (Pix.bitmap 1000 1000 "base") sImg80 "public/logos/l.png" = .ok b ∧
      overlayOf b = some (Pix.opacified (Pix.resized (Pix.bitmap 400 400 "logo")
        (resizeTargetWidth 1000 80)) 80)) := by
  have hmm : (min LOGO_MAX_SIZE (max LOGO_MIN_SIZE 80) : ℚ) = 50 := by
    norm_num [LOGO_MAX_SIZE, LOGO_MIN_SIZE, min_def, max_def]
  have h800 : resizeTargetWidth 1000 80 = 800 := by
    norm_num [resizeTargetWidth, jsRound]
  have h500 : jsRound (((1000 : ℕ) : ℚ) * (min LOGO_MAX_SIZE (max LOGO_MIN_SIZE 80)) / 100) =
      500 := by
    rw [hmm]
    norm_num [jsRound]
  refine ⟨h800, h500, ?_, ⟨_, rfl, rfl⟩⟩
  rw [h800, h500]
  decide

/-- C8 amended: no clamping is applied — the effective size is the caller's
size used as given, for every size value; this coincides with the
5–50-clamped formula exactly when the caller's size already lies in 5–50. -/
theorem C8_size_unclamped (W : ℕ) (s : ℚ) :
    resizeTargetWidth W s = jsRound ((W : ℚ) * s / 100) ∧
    (5 ≤ s → s ≤ 50 →
      resizeTargetWidth W s =
        jsRound ((W : ℚ) * (min LOGO_MAX_SIZE (max LOGO_MIN_SIZE s)) / 100)) := by
  refine ⟨rfl, fun h5 h50 => ?_⟩
  have h1 : max LOGO_MIN_SIZE s = s := max_eq_right (by simpa [LOGO_MIN_SIZE] using h5)
  have h2 : min LOGO_MAX_SIZE s = s := min_eq_right (by simpa [LOGO_MAX_SIZE] using h50)
  rw [h1, h2]
  rfl

/-- C8 witness: for size 20, inside the 5–50 range, the unclamped and clamped
formulas agree. -/
theorem C8_size_unclamped_witness :
    (5 : ℚ) ≤ 20 ∧ (20 : ℚ) ≤ 50 ∧
    resizeTargetWidth 1000 20 =
      jsRound (((1000 : ℕ) : ℚ) * (min LOGO_MAX_SIZE (max LOGO_MIN_SIZE 20)) / 100) :=
  ⟨by decide, by decide, (C8_size_unclamped 1000 20).2 (by decide) (by decide)⟩

/-- C9 counterexample: a text watermark ("ACME", size 20, opacity 100) on a
1000 by 1000 base produces an overlay that passed through no resize step at
all: its canvas width is the full base width 1000, not the image-path scale
width round(1000 * 20 / 100) = 200, refuting the claim that text runs through
the identical scale step. -/
theorem C9_counterexample :
    ∃ b ov, applyTextWatermark rotId (Pix.bitmap 1000 1000 "base") sText = .ok b ∧
      overlayOf b = some ov ∧
      usesScaleStep (resizeTargetWidth 1000 sText.size) b = false ∧
      resizeTargetWidth 1000 sText.size = 200 ∧
      (dims rotId ov).1 = 1000 ∧
      ((dims rotId ov).1 : ℤ) ≠ resizeTargetWidth 1000 sText.size := by
  have h200 : resizeTargetWidth 1000 sText.size = 200 := by
    show resizeTargetWidth 1000 20 = 200
    norm_num [resizeTargetWidth, jsRound]
  refine ⟨_, _, rfl, rfl, rfl, h200, rfl, ?_⟩
  rw [h200]
  decide

/-- C9 amended: both logo types share the identical downstream pipeline from
the effects stage onward — the same rotate/opacity effects, the same
post-effects measurement, position computation and over composite — but the
scale step (resize to round(W * size / 100)) exists only on the image path;
the text asset is rendered on a canvas of the full base width with a font
size derived from the size percent and is never resized. -/
theorem C9_shared_downstream (rotDims : ℕ → ℕ → ℚ → ℕ × ℕ) (readFile : String → Pix)
    (base : Pix) (s : LogoSettings) (p : String) (W H : ℕ)
    (hWH : dims rotDims base = (W, H)) (hW0 : W ≠ 0) (hH0 : H ≠ 0) :
    applyImageLogo rotDims readFile base s p =
      .ok (downstreamComposite rotDims base W H
        (Pix.resized (readFile p) (resizeTargetWidth W s.size)) s) ∧
    (∀ c, s.content = some c → c ≠ "" →
      applyTextWatermark rotDims base s =
        .ok (downstreamComposite rotDims base W H
          (createTextWatermark c W s.size (s.textColor.getD TEXT_DEFAULT_COLOR)
            (s.fontFamily.getD TEXT_DEFAULT_FONT)) s)) := by
  constructor
  · simp [applyImageLogo, hWH, hW0, hH0, resizeLogo, downstreamComposite]
  · intro c hc hne
    simp [applyTextWatermark, hc, hne, hWH, hW0, hH0, downstreamComposite]

/-- C9 witness: at a 1000 by 1000 base with the "ACME" settings, both paths
factor through the shared downstream pipeline applied to their respective
assets. -/
theorem C9_shared_downstream_witness :
    dims rotId (Pix.bitmap 1000 1000 "base") = (1000, 1000) ∧ (1000 : ℕ) ≠ 0 ∧
    sText.content = some "ACME" ∧ "ACME" ≠ "" ∧
    applyImageLogo rotId (fun _ => Pix.bitmap 400 400 "logo")
      (Pix.bitmap 1000 1000 "base") sText "q" =
      .ok (downstreamComposite rotId (Pix.bitmap 1000 1000 "base") 1000 1000
        (Pix.resized (Pix.bitmap 400 400 "logo") (resizeTargetWidth 1000 sText.size))
        sText) ∧
    applyTextWatermark rotId (Pix.bitmap 1000 1000 "base") sText =
      .ok (downstreamComposite rotId (Pix.bitmap 1000 1000 "base") 1000 1000
        (createTextWatermark "ACME" 1000 sText.size
          (sText.textColor.getD TEXT_DEFAULT_COLOR)
          (sText.fontFamily.getD TEXT_DEFAULT_FONT)) sText) := by
  have h := C9_shared_downstream rotId (fun _ => Pix.bitmap 400 400 "logo")
    (Pix.bitmap 1000 1000 "base") sText "q" 1000 1000 rfl (by decide) (by decide)
  exact ⟨rfl, by decide, rfl, by decide, h.1, h.2 "ACME" rfl (by decide)⟩

/-- C10: parseResolution is total — for every string it splits on the
character x, converts each part with Number, and replaces a missing, zero or
not-a-number component by 1024 — so "foo" and "" yield 1024 by 1024, a zero
component falls back to 1024, and a well-formed resolution parses exactly. -/
theorem C10_parseResolution_total :
    (∀ s : String, parseResolution s =
      (numOr1024 (((jsSplitChar 'x' s.data).map (fun cs => jsNumberCore (jsTrim cs)))[0]?),
        numOr1024
          (((jsSplitChar 'x' s.data).map (fun cs => jsNumberCore (jsTrim cs)))[1]?))) ∧
    parseResolution "foo" = (1024, 1024) ∧
    parseResolution "" = (1024, 1024) ∧
    parseResolution "0x768" = (1024, 768) ∧
    parseResolution "512x512" = (512, 512) :=
  ⟨fun s => rfl, by decide, by decide, by decide, by decide⟩

end PIG
